import Mathlib

/-!
Verification of the SeleniumLibrary session-registry design and the
library facade (`src/SeleniumLibrary/__init__.py`).

The facade methods `run_keyword`, `register_browser`, `failure_occurred`
and the `browser` property are embedded directly from the source file.
The browser registry (`BrowserCache`, imported from `SeleniumLibrary.utils`)
is not part of the provided sources, so its operations are modelled from
the specification of the Session Registry component.
-/

namespace SeleniumSpec

/-- A registry key: either a caller-supplied alias or an auto-assigned
1-based integer index. -/
inductive Key where
  | alias (a : String)
  | index (i : Nat)
deriving DecidableEq, Repr

/-- Errors raised by registry operations. -/
inductive RegError where
  | duplicateAlias
  | unknownSession
deriving DecidableEq, Repr

/-- Modelled from the spec: the Session Registry state (the `BrowserCache`
class is missing from the sources).  An ordered mapping from key to opaque
session handle, the next auto-assigned index (1-based, monotonically
increasing, never reused), and an optional pointer to the current entry.
New entries are prepended, so the most recent binding of a key shadows
older ones. -/
structure Registry (σ : Type) where
  entries : List (Key × σ)
  nextIndex : Nat
  current : Option Key
deriving DecidableEq, Repr

/-- The initial (empty) registry: no entries, next index 1, no current. -/
def Registry.init (σ : Type) : Registry σ := ⟨[], 1, none⟩

/-- First-match lookup in the association list of live entries. -/
def lookupKey {σ : Type} (k : Key) : List (Key × σ) → Option σ
  | [] => none
  | (k', s) :: rest => if k' = k then some s else lookupKey k rest

/-- Remove the first (visible) entry bound to `k`, keeping all others. -/
def removeKey {σ : Type} (k : Key) : List (Key × σ) → List (Key × σ)
  | [] => []
  | (k', s) :: rest => if k' = k then rest else (k', s) :: removeKey k rest

/-- Modelled from the spec: `register(session, alias=None) → key`.
Stores the session under the alias when it is given and not already used
by a live entry (else `DuplicateAliasError`, leaving the state unchanged);
without an alias, assigns the next sequential integer index.  The new
entry becomes current and the key is returned. -/
def register {σ : Type} (r : Registry σ) (s : σ) (a : Option String) :
    Except RegError Key × Registry σ :=
  match a with
  | some al =>
      if (lookupKey (Key.alias al) r.entries).isSome then
        (Except.error RegError.duplicateAlias, r)
      else
        (Except.ok (Key.alias al),
         ⟨(Key.alias al, s) :: r.entries, r.nextIndex, some (Key.alias al)⟩)
  | none =>
      (Except.ok (Key.index r.nextIndex),
       ⟨(Key.index r.nextIndex, s) :: r.entries, r.nextIndex + 1,
        some (Key.index r.nextIndex)⟩)

/-- Modelled from the spec: `current() → Session | None`.  The session
marked current, or an empty result if none is open. -/
def currentSession {σ : Type} (r : Registry σ) : Option σ :=
  r.current.bind (fun k => lookupKey k r.entries)

/-- Modelled from the spec: `switch(key) → Session`.  Makes the entry
identified by `key` current and returns its session; fails with
`UnknownSessionError` (state unchanged) when `key` has no live entry. -/
def switch {σ : Type} (r : Registry σ) (k : Key) :
    Except RegError σ × Registry σ :=
  match lookupKey k r.entries with
  | some s => (Except.ok s, { r with current := some k })
  | none => (Except.error RegError.unknownSession, r)

/-- Modelled from the spec: `close_current() → None`.  Invokes teardown on
the current session (the returned list records the teardown calls made),
removes that entry and clears the current pointer; a no-op when no session
is current. -/
def close_current {σ : Type} (r : Registry σ) : List σ × Registry σ :=
  match r.current with
  | none => ([], r)
  | some k =>
      match lookupKey k r.entries with
      | none => ([], { r with current := none })
      | some s => ([s], ⟨removeKey k r.entries, r.nextIndex, none⟩)

/-- Attempt teardown (`td s = some e` meaning failure with error `e`) on
every entry in order, returning the list of attempted entries and the
list of (key, error) pairs of the failed attempts. -/
def teardownAll {σ ε : Type} (td : σ → Option ε) :
    List (Key × σ) → List (Key × σ) × List (Key × ε)
  | [] => ([], [])
  | (k, s) :: rest =>
      let p := teardownAll td rest
      match td s with
      | none => ((k, s) :: p.1, p.2)
      | some e => ((k, s) :: p.1, (k, e) :: p.2)

/-- Modelled from the spec: `close_all() → None`.  Tears down every live
session (each attempted even when others fail), clears the registry and
the current pointer, and reports the collected failures as an aggregate
`TeardownError` when any teardown failed.  Returns the attempted entries,
the outcome, and the new registry state. -/
def close_all {σ ε : Type} (td : σ → Option ε) (r : Registry σ) :
    List (Key × σ) × Except (List (Key × ε)) Unit × Registry σ :=
  let p := teardownAll td r.entries
  (p.1,
   match p.2 with
   | [] => Except.ok ()
   | f :: fs => Except.error (f :: fs),
   ⟨[], r.nextIndex, none⟩)

/-- Modelled from the spec: `is_empty() → bool`. -/
def is_empty {σ : Type} (r : Registry σ) : Bool :=
  r.entries.isEmpty

/-- A registry operation, for reasoning about arbitrary call sequences. -/
inductive Op (σ : Type) where
  | register (s : σ) (a : Option String)
  | switch (k : Key)
  | closeCurrent
  | closeAll
deriving Repr

/-- The registry state reached after one operation (teardown outcomes do
not influence the resulting state). -/
def step {σ : Type} (r : Registry σ) : Op σ → Registry σ
  | Op.register s a => (register r s a).2
  | Op.switch k => (switch r k).2
  | Op.closeCurrent => (close_current r).2
  | Op.closeAll => (close_all (fun (_ : σ) => (none : Option Unit)) r).2.2

/-- Run a sequence of operations from a state. -/
def run {σ : Type} : List (Op σ) → Registry σ → Registry σ
  | [], r => r
  | op :: ops, r => run ops (step r op)

/-- The integer indices assigned by the unaliased `register` calls of an
operation sequence, in order of execution. -/
def assignedIndices {σ : Type} : List (Op σ) → Registry σ → List Nat
  | [], _ => []
  | Op.register s none :: ops, r =>
      r.nextIndex :: assignedIndices ops (step r (Op.register s none))
  | op :: ops, r => assignedIndices ops (step r op)

/-- The number of unaliased `register` operations in a sequence. -/
def countAuto {σ : Type} : List (Op σ) → Nat
  | [] => 0
  | Op.register _ none :: ops => countAuto ops + 1
  | _ :: ops => countAuto ops

/-- The current pointer, when set, refers to a live entry. -/
def CurrentLive {σ : Type} (r : Registry σ) : Prop :=
  ∀ k, r.current = some k → (lookupKey k r.entries).isSome

end SeleniumSpec

namespace SeleniumFacade

open SeleniumSpec

/-- The facade state relevant to the failure hook, from
`SeleniumLibrary.__init__`: the resolved run-on-failure keyword (`none`
when disabled) and the `_running_on_failure_keyword` re-entrance flag
(initialised to `False`). -/
structure Lib (H : Type) where
  run_on_failure_keyword : Option H
  running_on_failure : Bool
deriving DecidableEq, Repr

/-- `SeleniumLibrary.failure_occurred`, embedded from the source.  The
external `BuiltIn().run_keyword` call is the parameter `runKw`; the result
records the hook invocations made, the warnings logged for a hook that
raised, and the updated state.  Returns immediately when the hook is
already running or no hook is configured; otherwise sets the flag, runs
the hook, logs (not propagates) any error, and finally clears the flag. -/
def failure_occurred {H E : Type} (runKw : H → Except E Unit) (lib : Lib H) :
    List H × List E × Lib H :=
  if lib.running_on_failure then ([], [], lib)
  else
    match lib.run_on_failure_keyword with
    | none => ([], [], lib)
    | some h =>
        match runKw h with
        | Except.ok _ => ([h], [], { lib with running_on_failure := false })
        | Except.error e => ([h], [e], { lib with running_on_failure := false })

/-- `SeleniumLibrary.run_keyword`, embedded from the source.  The inner
`DynamicCore.run_keyword` call is the parameter `inner`; on an exception
the facade runs `failure_occurred` and re-raises the same exception. -/
def run_keyword {H E V : Type} (runKw : H → Except E Unit)
    (inner : Except E V) (lib : Lib H) :
    Except E V × List H × List E × Lib H :=
  match inner with
  | Except.ok v => (Except.ok v, [], [], lib)
  | Except.error e =>
      let p := failure_occurred runKw lib
      (Except.error e, p.1, p.2.1, p.2.2)

/-- The error raised by the `browser` property when no browser is open. -/
inductive BrowserError where
  | noBrowserOpen
deriving DecidableEq, Repr

/-- The `SeleniumLibrary.browser` property, embedded from the source:
raises `RuntimeError('No browser is open')` when the registry has no
current session, otherwise returns the current session. -/
def browser {σ : Type} (r : Registry σ) : Except BrowserError σ :=
  match currentSession r with
  | none => Except.error BrowserError.noBrowserOpen
  | some s => Except.ok s

/-- `SeleniumLibrary.register_browser`, embedded from the source: a direct
delegation to the registry's `register`. -/
def register_browser {σ : Type} (r : Registry σ) (b : σ) (a : Option String) :
    Except RegError Key × Registry σ :=
  register r b a

end SeleniumFacade

namespace SeleniumSpec

/-! ## Helper lemmas on the registry semantics -/

/-- Only an unaliased `register` changes the auto-index counter, and it
increments it by one. -/
theorem step_nextIndex {σ : Type} (r : Registry σ) (op : Op σ) :
    (step r op).nextIndex =
      match op with
      | Op.register _ none => r.nextIndex + 1
      | _ => r.nextIndex := by
  cases op with
  | register s a =>
      cases a with
      | none => rfl
      | some al =>
          simp only [step, register]
          split <;> rfl
  | switch k =>
      simp only [step, switch]
      split <;> rfl
  | closeCurrent =>
      simp only [step, close_current]
      split
      · rfl
      · split <;> rfl
  | closeAll => rfl

/-- The indices assigned by the unaliased registrations of a run are the
consecutive integers starting at the state's counter. -/
theorem assignedIndices_eq {σ : Type} (ops : List (Op σ)) (r : Registry σ) :
    assignedIndices ops r = List.range' r.nextIndex (countAuto ops) := by
  induction ops generalizing r with
  | nil => rfl
  | cons op ops ih =>
      cases op with
      | register s a =>
          cases a with
          | none =>
              show r.nextIndex :: assignedIndices ops (step r (Op.register s none)) = _
              rw [ih]
              rfl
          | some al =>
              show assignedIndices ops (step r (Op.register s (some al))) = _
              rw [ih, step_nextIndex]
              rfl
      | switch k =>
          show assignedIndices ops (step r (Op.switch k)) = _
          rw [ih, step_nextIndex]
          rfl
      | closeCurrent =>
          show assignedIndices ops (step r Op.closeCurrent) = _
          rw [ih, step_nextIndex]
          rfl
      | closeAll =>
          show assignedIndices ops (step r Op.closeAll) = _
          rw [ih, step_nextIndex]
          rfl

/-- Every operation preserves liveness of the current pointer. -/
theorem currentLive_step {σ : Type} {r : Registry σ} (h : CurrentLive r)
    (op : Op σ) : CurrentLive (step r op) := by
  cases op with
  | register s a =>
      cases a with
      | none =>
          intro k hk
          simp only [step, register] at hk ⊢
          cases hk
          simp [lookupKey]
      | some al =>
          by_cases hd : (lookupKey (Key.alias al) r.entries).isSome
          · intro k hk
            simp only [step, register, hd, if_pos] at hk ⊢
            exact h k hk
          · intro k hk
            simp only [step, register, hd, if_neg, Bool.false_eq_true,
              not_false_iff] at hk ⊢
            cases hk
            simp [lookupKey]
  | switch k =>
      simp only [step, switch]
      cases hl : lookupKey k r.entries with
      | none =>
          intro k' hk'
          exact h k' hk'
      | some s =>
          dsimp only
          intro k' hk'
          have hk2 : some k = some k' := hk'
          obtain rfl := Option.some.inj hk2
          show (lookupKey k r.entries).isSome = true
          rw [hl]
          rfl
  | closeCurrent =>
      simp only [step, close_current]
      cases hc : r.current with
      | none =>
          intro k' hk'
          exact h k' hk'
      | some k =>
          dsimp only
          cases hl : lookupKey k r.entries with
          | none =>
              intro k' hk'
              have hk2 : (none : Option Key) = some k' := hk'
              exact absurd hk2 (by simp)
          | some s =>
              intro k' hk'
              have hk2 : (none : Option Key) = some k' := hk'
              exact absurd hk2 (by simp)
  | closeAll =>
      intro k' hk'
      simp only [step, close_all] at hk'
      simp at hk'

/-- The empty registry has a live (indeed absent) current pointer. -/
theorem currentLive_init (σ : Type) : CurrentLive (Registry.init σ) := by
  intro k hk
  simp [Registry.init] at hk

/-- Liveness of the current pointer holds in every reachable state. -/
theorem currentLive_run {σ : Type} (ops : List (Op σ)) (r : Registry σ)
    (h : CurrentLive r) : CurrentLive (run ops r) := by
  induction ops generalizing r with
  | nil => exact h
  | cons op ops ih => exact ih _ (currentLive_step h op)

/-! ## Claims -/

/-- C1: for every sequence of registry operations starting from the empty
registry, the integer indices assigned by unaliased `register` calls are
exactly `1, 2, …, k` in execution order — strictly increasing, starting
at 1, never repeated even when closes intervene, so a retired index is
never assigned again. -/
theorem C1_indices_sequential_no_reuse {σ : Type} (ops : List (Op σ)) :
    assignedIndices ops (Registry.init σ) = List.range' 1 (countAuto ops) ∧
    List.Pairwise (· < ·) (assignedIndices ops (Registry.init σ)) ∧
    (assignedIndices ops (Registry.init σ)).Nodup := by
  refine ⟨assignedIndices_eq ops _, ?_, ?_⟩ <;> rw [assignedIndices_eq]
  · exact List.pairwise_lt_range' _ _
  · exact List.nodup_range' _ _

/-- C2: a successful `register` always makes the new session current; in
every state reachable from the empty registry the (unique, since it is a
single pointer) current entry is live; and concretely `register s1`,
`register s2` leaves `current() = s2` while a subsequent
`switch(key_of_s1)` makes `current() = s1`. -/
theorem C2_register_makes_current (σ : Type) :
    (∀ (r : Registry σ) (s : σ) (a : Option String),
        (register r s a).1.isOk = true →
        currentSession (register r s a).2 = some s) ∧
    (∀ ops : List (Op σ), CurrentLive (run ops (Registry.init σ))) ∧
    (currentSession
        (register (register (Registry.init Nat) 5 none).2 6 none).2 = some 6 ∧
     (switch (register (register (Registry.init Nat) 5 none).2 6 none).2
        (Key.index 1)).1 = Except.ok 5 ∧
     currentSession
        (switch (register (register (Registry.init Nat) 5 none).2 6 none).2
          (Key.index 1)).2 = some 5) := by
  refine ⟨?_, fun ops => currentLive_run ops _ (currentLive_init σ), ?_⟩
  · intro r s a h
    cases a with
    | none => simp [register, currentSession, lookupKey]
    | some al =>
        by_cases hd : (lookupKey (Key.alias al) r.entries).isSome
        · simp [register, hd, Except.isOk, Except.toBool] at h
        · simp [register, hd, currentSession, lookupKey]
  · exact ⟨rfl, rfl, rfl⟩

/-- C2 witness: the general clause applied at a concrete registration. -/
theorem C2_register_makes_current_witness :
    currentSession (register (Registry.init Nat) 7 none).2 = some 7 :=
  (C2_register_makes_current Nat).1 (Registry.init Nat) 7 none (by decide)

end SeleniumSpec

namespace SeleniumSpec

/-- `close_all` attempts teardown on every live entry, in order, exactly
once each. -/
theorem teardownAll_attempts {σ ε : Type} (td : σ → Option ε)
    (l : List (Key × σ)) : (teardownAll td l).1 = l := by
  induction l with
  | nil => rfl
  | cons e rest ih =>
      obtain ⟨k, s⟩ := e
      simp only [teardownAll]
      cases td s <;> simp [ih]

/-- The failures collected by `teardownAll` are exactly the (key, error)
pairs of the entries whose teardown failed, in order. -/
theorem teardownAll_failures {σ ε : Type} (td : σ → Option ε)
    (l : List (Key × σ)) :
    (teardownAll td l).2 =
      l.filterMap (fun e => (td e.2).map (fun err => (e.1, err))) := by
  induction l with
  | nil => rfl
  | cons e rest ih =>
      obtain ⟨k, s⟩ := e
      simp only [teardownAll, List.filterMap_cons]
      cases td s <;> simp [ih]

/-- A teardown function for the three-session example: teardown of
session `2` fails, the others succeed. -/
def sampleTeardown : Nat → Option String :=
  fun s => if s = 2 then some "boom" else none

/-- Three unaliased registrations from the empty registry. -/
def sampleRegistry3 : Registry Nat :=
  (register (register (register (Registry.init Nat) 1 none).2 2 none).2
    3 none).2

/-- C3: `close_all` attempts teardown exactly once per live entry even
when some teardowns fail, clears the registry and the current pointer,
and reports exactly the failed (key, error) pairs as the aggregate error
(`Except.ok` when none failed); with three sessions and teardown failing
only for session 2, all three are attempted and the error lists only that
failure. -/
theorem C3_close_all_attempts_and_failures {σ ε : Type}
    (td : σ → Option ε) (r : Registry σ) :
    (close_all td r).1 = r.entries ∧
    (close_all td r).2.1 =
      (match r.entries.filterMap
          (fun e => (td e.2).map (fun err => (e.1, err))) with
        | [] => Except.ok ()
        | f :: fs => Except.error (f :: fs)) ∧
    (close_all td r).2.2.entries = [] ∧
    (close_all td r).2.2.current = none ∧
    (close_all sampleTeardown sampleRegistry3).1 =
      [(Key.index 3, 3), (Key.index 2, 2), (Key.index 1, 1)] ∧
    (close_all sampleTeardown sampleRegistry3).2.1 =
      Except.error [(Key.index 2, "boom")] := by
  refine ⟨?_, ?_, rfl, rfl, rfl, rfl⟩
  · show (teardownAll td r.entries).1 = r.entries
    exact teardownAll_attempts td r.entries
  · show (match (teardownAll td r.entries).2 with
        | [] => Except.ok ()
        | f :: fs => Except.error (f :: fs)) = _
    rw [teardownAll_failures]

/-- C9: after a `close_all` the registry is empty, and a second
`close_all` is a no-op: it attempts no teardown, succeeds, and leaves the
already-empty state (still empty) unchanged. -/
theorem C9_close_all_idempotent {σ ε : Type} (td : σ → Option ε)
    (r : Registry σ) :
    is_empty (close_all td r).2.2 = true ∧
    (close_all td (close_all td r).2.2).1 = [] ∧
    (close_all td (close_all td r).2.2).2.1 = Except.ok () ∧
    (close_all td (close_all td r).2.2).2.2 = (close_all td r).2.2 ∧
    is_empty (close_all td (close_all td r).2.2).2.2 = true :=
  ⟨rfl, rfl, rfl, rfl, rfl⟩

/-- C7: `switch k` on a live key returns that key's session and makes it
current, changing nothing else; on a key with no live entry it fails with
`UnknownSessionError` and leaves the registry state unchanged. -/
theorem C7_switch_live_or_unknown {σ : Type} (r : Registry σ) (k : Key) :
    (∀ s, lookupKey k r.entries = some s →
        switch r k = (Except.ok s, { r with current := some k })) ∧
    (lookupKey k r.entries = none →
        switch r k = (Except.error RegError.unknownSession, r)) := by
  constructor
  · intro s hs
    simp [switch, hs]
  · intro hn
    simp [switch, hn]

/-- C7 witness: switching to the live key `1` succeeds; switching on the
empty registry fails with the state unchanged. -/
theorem C7_switch_live_or_unknown_witness :
    switch (register (Registry.init Nat) 9 none).2 (Key.index 1) =
      (Except.ok 9,
       { (register (Registry.init Nat) 9 none).2 with
          current := some (Key.index 1) }) ∧
    switch (Registry.init Nat) (Key.index 1) =
      (Except.error RegError.unknownSession, Registry.init Nat) :=
  ⟨(C7_switch_live_or_unknown _ _).1 9 rfl,
   (C7_switch_live_or_unknown _ _).2 rfl⟩

/-- C6: `register` with an alias fails with `DuplicateAliasError` (state
unchanged) exactly when the alias is live; when the alias is free the
registration succeeds and returns the alias key; concretely, registering
`"a"` twice without a close fails, while registering `"a"` again after
closing the first entry succeeds. -/
theorem C6_register_duplicate_alias {σ : Type} (r : Registry σ) (s : σ)
    (al : String) :
    ((register r s (some al)).1 = Except.error RegError.duplicateAlias ↔
      (lookupKey (Key.alias al) r.entries).isSome = true) ∧
    ((lookupKey (Key.alias al) r.entries).isSome = true →
      register r s (some al) = (Except.error RegError.duplicateAlias, r)) ∧
    ((lookupKey (Key.alias al) r.entries).isSome = false →
      register r s (some al) =
        (Except.ok (Key.alias al),
         ⟨(Key.alias al, s) :: r.entries, r.nextIndex,
          some (Key.alias al)⟩)) ∧
    (register (register (Registry.init Nat) 1 (some "a")).2 2
      (some "a")).1 = Except.error RegError.duplicateAlias ∧
    (register (close_current
        (register (Registry.init Nat) 1 (some "a")).2).2 2
      (some "a")).1 = Except.ok (Key.alias "a") := by
  refine ⟨?_, ?_, ?_, rfl, rfl⟩
  · by_cases hd : (lookupKey (Key.alias al) r.entries).isSome
    · simp [register, hd]
    · simp [register, hd]
  · intro hd
    simp [register, hd]
  · intro hd
    simp [register, hd]

/-- C6 witness: the three conditional clauses applied at concrete
registries. -/
theorem C6_register_duplicate_alias_witness :
    ((register (register (Registry.init Nat) 1 (some "a")).2 2
        (some "a")).1 = Except.error RegError.duplicateAlias) ∧
    (register (register (Registry.init Nat) 1 (some "a")).2 2 (some "a") =
      (Except.error RegError.duplicateAlias,
       (register (Registry.init Nat) 1 (some "a")).2)) ∧
    (register (Registry.init Nat) 3 (some "b") =
      (Except.ok (Key.alias "b"),
       ⟨[(Key.alias "b", 3)], 1, some (Key.alias "b")⟩)) :=
  ⟨(C6_register_duplicate_alias (register (Registry.init Nat) 1
      (some "a")).2 2 "a").1.mpr (by decide),
   (C6_register_duplicate_alias (register (Registry.init Nat) 1
      (some "a")).2 2 "a").2.1 (by decide),
   (C6_register_duplicate_alias (Registry.init Nat) 3 "b").2.2.1
      (by decide)⟩

end SeleniumSpec

namespace SeleniumSpec

/-- Removing the entry of one key does not change the lookup of any other
key. -/
theorem lookupKey_removeKey {σ : Type} {k k' : Key} (h : k' ≠ k)
    (l : List (Key × σ)) :
    lookupKey k' (removeKey k l) = lookupKey k' l := by
  induction l with
  | nil => rfl
  | cons e rest ih =>
      obtain ⟨k0, s0⟩ := e
      simp only [removeKey]
      by_cases h0 : k0 = k
      · rw [if_pos h0]
        subst h0
        show lookupKey k' rest = if k0 = k' then some s0 else lookupKey k' rest
        rw [if_neg (Ne.symm h)]
      · rw [if_neg h0]
        show (if k0 = k' then some s0 else lookupKey k' (removeKey k rest)) =
          if k0 = k' then some s0 else lookupKey k' rest
        by_cases h1 : k0 = k'
        · rw [if_pos h1, if_pos h1]
        · rw [if_neg h1, if_neg h1]
          exact ih

/-- An aliased registration followed by an unaliased one, for the
close-current policy example. -/
def mainRegistry : Registry Nat :=
  (register (Registry.init Nat) 10 (some "main")).2

/-- The registry holding the aliased session `"main"` (session 10) and
the unaliased session 20 under index 1. -/
def mainThenAuto : Registry Nat :=
  (register mainRegistry 20 none).2

/-- The state after switching to `"main"` and closing it. -/
def afterCloseMain : Registry Nat :=
  (close_current (switch mainThenAuto (Key.alias "main")).2).2

/-- C8: `close_current` with no current session is a no-op performing no
teardown call; with a current session it tears that one session down,
removes only that entry and clears the pointer without selecting another
session, leaving the lookup of every other key unchanged; concretely,
after registering `"main"` (session 10) and an unaliased session 20
(which gets index 1), switching to `"main"` and closing it leaves the
registry non-empty, with no current session until an explicit switch to
index 1. -/
theorem C8_close_current_no_autoselect {σ : Type} (r : Registry σ) :
    (r.current = none → close_current r = ([], r)) ∧
    (∀ k s, r.current = some k → lookupKey k r.entries = some s →
      close_current r = ([s], ⟨removeKey k r.entries, r.nextIndex, none⟩)) ∧
    (∀ k k', r.current = some k → k' ≠ k →
      lookupKey k' (close_current r).2.entries = lookupKey k' r.entries) ∧
    (register mainRegistry 20 none).1 = Except.ok (Key.index 1) ∧
    (close_current (switch mainThenAuto (Key.alias "main")).2).1 = [10] ∧
    is_empty afterCloseMain = false ∧
    currentSession afterCloseMain = none ∧
    (switch afterCloseMain (Key.index 1)).1 = Except.ok 20 ∧
    currentSession (switch afterCloseMain (Key.index 1)).2 = some 20 := by
  refine ⟨?_, ?_, ?_, rfl, rfl, rfl, rfl, rfl, rfl⟩
  · intro h
    simp [close_current, h]
  · intro k s hk hs
    simp [close_current, hk, hs]
  · intro k k' hk hne
    cases hl : lookupKey k r.entries with
    | none => simp [close_current, hk, hl]
    | some s =>
        simp only [close_current, hk, hl]
        exact lookupKey_removeKey hne r.entries

/-- C8 witness: the three conditional clauses applied at concrete
registries. -/
theorem C8_close_current_no_autoselect_witness :
    close_current (Registry.init Nat) = ([], Registry.init Nat) ∧
    close_current mainRegistry = ([10], ⟨[], 1, none⟩) ∧
    lookupKey (Key.index 1)
        (close_current (switch mainThenAuto (Key.alias "main")).2).2.entries =
      lookupKey (Key.index 1)
        (switch mainThenAuto (Key.alias "main")).2.entries :=
  ⟨(C8_close_current_no_autoselect (Registry.init Nat)).1 rfl,
   (C8_close_current_no_autoselect mainRegistry).2.1
      (Key.alias "main") 10 rfl rfl,
   (C8_close_current_no_autoselect
      (switch mainThenAuto (Key.alias "main")).2).2.2.1
      (Key.alias "main") (Key.index 1) rfl (by decide)⟩

end SeleniumSpec

namespace SeleniumFacade

open SeleniumSpec

/-- C5: `current()` returns the session marked current or an empty
result; the facade's `browser` accessor raises `RuntimeError` exactly
when the registry has no current session, and otherwise returns the
current session. -/
theorem C5_browser_error_iff_no_current {σ : Type} (r : Registry σ) :
    ((browser r).isOk = true ↔ (currentSession r).isSome = true) ∧
    (∀ s, currentSession r = some s → browser r = Except.ok s) ∧
    (currentSession r = none →
      browser r = Except.error BrowserError.noBrowserOpen) := by
  refine ⟨?_, ?_, ?_⟩
  · cases hc : currentSession r <;>
      simp [browser, hc, Except.isOk, Except.toBool]
  · intro s hs
    simp [browser, hs]
  · intro hn
    simp [browser, hn]

/-- C5 witness: no current session on the empty registry means an error;
a current session is returned. -/
theorem C5_browser_error_iff_no_current_witness :
    browser (Registry.init Nat) = Except.error BrowserError.noBrowserOpen ∧
    browser mainThenAuto = Except.ok 20 :=
  ⟨(C5_browser_error_iff_no_current (Registry.init Nat)).2.2 rfl,
   (C5_browser_error_iff_no_current mainThenAuto).2.1 20 rfl⟩

/-- C4: a keyword invocation that raises first runs the configured
run-on-failure handling and then re-raises the original exception
unmodified (even when the hook itself errors, the original exception is
the one propagated); a successful invocation returns its value with no
hook activity. -/
theorem C4_run_keyword_hook_then_reraise {H E V : Type}
    (runKw : H → Except E Unit) (lib : Lib H) :
    (∀ e : E, run_keyword runKw (Except.error e : Except E V) lib =
      (Except.error e, failure_occurred runKw lib)) ∧
    (∀ (h : H) (e : E) (e' : E), lib.running_on_failure = false →
      lib.run_on_failure_keyword = some h → runKw h = Except.error e' →
      run_keyword runKw (Except.error e : Except E V) lib =
        (Except.error e, [h], [e'],
         { lib with running_on_failure := false })) ∧
    (∀ v : V, run_keyword runKw (Except.ok v) lib =
      (Except.ok v, [], [], lib)) := by
  refine ⟨fun e => rfl, ?_, fun v => rfl⟩
  intro h e e' hf hk hr
  simp [run_keyword, failure_occurred, hf, hk, hr]

/-- C4 witness: a failing keyword with a failing hook still reports the
original exception, after one hook invocation. -/
theorem C4_run_keyword_hook_then_reraise_witness :
    run_keyword (fun (_ : String) => (Except.error "hookboom" :
        Except String Unit))
      (Except.error "kwfail" : Except String Nat)
      (⟨some "Capture Page Screenshot", false⟩ : Lib String) =
    (Except.error "kwfail", ["Capture Page Screenshot"], ["hookboom"],
     ⟨some "Capture Page Screenshot", false⟩) :=
  (C4_run_keyword_hook_then_reraise
    (fun _ => Except.error "hookboom")
    ⟨some "Capture Page Screenshot", false⟩).2.1
    "Capture Page Screenshot" "kwfail" "hookboom" rfl rfl rfl

/-- C10: `failure_occurred` never propagates a hook exception (a failing
hook is recorded as a warning), a call made while the hook is already
running or with no hook configured does nothing, and the re-entrance
flag is left exactly as it was found — in particular `False` again after
every top-level call. -/
theorem C10_failure_occurred_guarded {H E : Type}
    (runKw : H → Except E Unit) (lib : Lib H) :
    (lib.running_on_failure = true →
      failure_occurred runKw lib = ([], [], lib)) ∧
    (lib.run_on_failure_keyword = none →
      failure_occurred runKw lib = ([], [], lib)) ∧
    (∀ (h : H) (e : E), lib.running_on_failure = false →
      lib.run_on_failure_keyword = some h → runKw h = Except.error e →
      failure_occurred runKw lib =
        ([h], [e], { lib with running_on_failure := false })) ∧
    (∀ h : H, lib.running_on_failure = false →
      lib.run_on_failure_keyword = some h → runKw h = Except.ok () →
      failure_occurred runKw lib =
        ([h], [], { lib with running_on_failure := false })) ∧
    (failure_occurred runKw lib).2.2.running_on_failure =
      lib.running_on_failure := by
  refine ⟨?_, ?_, ?_, ?_, ?_⟩
  · intro h
    simp [failure_occurred, h]
  · intro h
    simp only [failure_occurred, h]
    split <;> rfl
  · intro h e hf hk hr
    simp [failure_occurred, hf, hk, hr]
  · intro h hf hk hr
    simp [failure_occurred, hf, hk, hr]
  · by_cases hf : lib.running_on_failure
    · simp [failure_occurred, hf]
    · cases hk : lib.run_on_failure_keyword with
      | none => simp [failure_occurred, hf, hk]
      | some h =>
          cases hr : runKw h with
          | ok u => simp [failure_occurred, hf, hk, hr,
              Bool.not_eq_true] at *
          | error e => simp [failure_occurred, hf, hk, hr,
              Bool.not_eq_true] at *

/-- C10 witness: the four conditional clauses applied at concrete
states: a nested call, a disabled hook, a failing hook, and a
succeeding hook. -/
theorem C10_failure_occurred_guarded_witness :
    failure_occurred
        (fun (_ : String) => (Except.error "x" : Except String Unit))
        (⟨some "K", true⟩ : Lib String) = ([], [], ⟨some "K", true⟩) ∧
    failure_occurred
        (fun (_ : String) => (Except.error "x" : Except String Unit))
        (⟨none, false⟩ : Lib String) = ([], [], ⟨none, false⟩) ∧
    failure_occurred
        (fun (_ : String) => (Except.error "x" : Except String Unit))
        (⟨some "K", false⟩ : Lib String) =
      (["K"], ["x"], ⟨some "K", false⟩) ∧
    failure_occurred
        (fun (_ : String) => (Except.ok () : Except String Unit))
        (⟨some "K", false⟩ : Lib String) = (["K"], [], ⟨some "K", false⟩) :=
  ⟨(C10_failure_occurred_guarded (fun _ => Except.error "x")
      ⟨some "K", true⟩).1 rfl,
   (C10_failure_occurred_guarded (fun _ => Except.error "x")
      ⟨none, false⟩).2.1 rfl,
   (C10_failure_occurred_guarded (fun _ => Except.error "x")
      ⟨some "K", false⟩).2.2.1 "K" "x" rfl rfl rfl,
   (C10_failure_occurred_guarded (fun _ => Except.ok ())
      ⟨some "K", false⟩).2.2.2.1 "K" rfl rfl rfl⟩

end SeleniumFacade
